import Mathlib

/-!
Shallow embedding of the RCIP recipe converter (src/rcip_converter.py).

Python strings are modelled as `List Char`; Python `float` arithmetic on the
parsed quantities is modelled with exact rationals (`ℚ`); the regular
expressions of the source are translated into explicit backtracking matchers
over `List Char` mirroring Python `re` semantics (greedy, leftmost-first) on
the character classes actually used by the source: `\d` is modelled as the
ASCII digits and `\s` as the ASCII whitespace characters.  The two
non-deterministic inputs of `convert` (the random UUID and the two
`datetime.utcnow()` timestamps) are passed in as explicit arguments.
-/

abbrev Str := List Char

/-- Model of the whitespace class `\s` and of `str.strip()`. -/
def isWsChar (c : Char) : Bool :=
  c = ' ' || c = '\t' || c = '\n' || c = '\r' || c = '\x0b' || c = '\x0c'

/-- Model of the digit class `\d` (ASCII digits). -/
def isDigitChar (c : Char) : Bool :=
  '0' ≤ c && c ≤ '9'

/-- Character class `[а-яА-Я.]` of the ingredient-line pattern. -/
def isUnitChar (c : Char) : Bool :=
  ('а' ≤ c && c ≤ 'я') || ('А' ≤ c && c ≤ 'Я') || c = '.'

/-- Model of `str.lower()` on the alphabets the converter uses
(ASCII letters and the Russian alphabet). -/
def lowerChar (c : Char) : Char :=
  if 'A' ≤ c && c ≤ 'Z' then Char.ofNat (c.toNat + 32)
  else if 'А' ≤ c && c ≤ 'Я' then Char.ofNat (c.toNat + 32)
  else if c = 'Ё' then 'ё'
  else c

def lowerStr (s : Str) : Str := s.map lowerChar

/-- Model of `str.strip()` (strip whitespace at both ends). -/
def stripWs (s : Str) : Str :=
  ((s.dropWhile isWsChar).reverse.dropWhile isWsChar).reverse

/-- Model of `str.strip('.')` (strip dots at both ends). -/
def stripDotsStr (s : Str) : Str :=
  ((s.dropWhile (fun c => c = '.')).reverse.dropWhile (fun c => c = '.')).reverse

/-- Boolean test that `pat` is a leading part of `s`; models
`str.startswith` and anchors of the regex matchers. -/
def hasPfx : Str → Str → Bool
  | [], _ => true
  | _ :: _, [] => false
  | p :: ps, c :: cs => p = c && hasPfx ps cs

/-- Boolean test that `pat` occurs contiguously inside `s`; models the
Python substring operator `in`. -/
def hasSub (pat : Str) : Str → Bool
  | [] => pat.isEmpty
  | c :: t => hasPfx pat (c :: t) || hasSub pat t

/-- Model of `text.split('\n')`. -/
def splitNl : Str → List Str
  | [] => [[]]
  | c :: t =>
    if c = '\n' then [] :: splitNl t
    else
      match splitNl t with
      | [] => [[c]]
      | h :: r => (c :: h) :: r

/-- Model of `'\n'.join(lines)`. -/
def joinNl : List Str → Str
  | [] => []
  | [s] => s
  | s :: t => s ++ '\n' :: joinNl t

/-- Numeric value of an ASCII digit character. -/
def digitVal (c : Char) : Nat := c.toNat - 48

/-- Value of a run of ASCII digits, as produced by `int(...)` on a `\d+` group. -/
def digitsToNat (ds : Str) : Nat :=
  ds.foldl (fun a c => a * 10 + digitVal c) 0

/-- Decimal rendering of a natural number (fuel-driven so that it reduces). -/
def natDigitsGo : Nat → Nat → Str → Str
  | 0, _, acc => acc
  | fuel + 1, n, acc =>
    if n < 10 then Char.ofNat (48 + n) :: acc
    else natDigitsGo fuel (n / 10) (Char.ofNat (48 + n % 10) :: acc)

def natDigits (n : Nat) : Str := natDigitsGo (n + 1) n []

/-- Model of the format specifier `{n:04d}`. -/
def pad4 (n : Nat) : Str :=
  let d := natDigits n
  List.replicate (4 - d.length) '0' ++ d

/-- Model of the format specifier `{n:02d}`. -/
def pad2 (n : Nat) : Str :=
  let d := natDigits n
  List.replicate (2 - d.length) '0' ++ d

/-- Model of `float(...)` applied to a string of the shape produced by the
quantity group `\d+[.,]?\d*` after `,` was replaced by `.`: an integer part,
an optional separator and a fractional part, read exactly. -/
def parseDec (s : Str) : ℚ :=
  let intPart := s.takeWhile isDigitChar
  let rest := s.drop intPart.length
  match rest with
  | _ :: frac => (digitsToNat intPart : ℚ) + (digitsToNat frac : ℚ) / ((10 : ℚ) ^ frac.length)
  | [] => (digitsToNat intPart : ℚ)

/-- Model of Python `enumerate` combined with a per-element map. -/
def mapIdx (f : Nat → α → β) : Nat → List α → List β
  | _, [] => []
  | i, a :: t => f i a :: mapIdx f (i + 1) t

/-- Membership of a string in a list of strings; models `x in collection`
for the allergen union. -/
def elemStr (a : Str) : List Str → Bool
  | [] => false
  | b :: t => if a = b then true else elemStr a t

/-- Table `ALLERGEN_KEYWORDS` of the source, in declaration order. -/
def ALLERGEN_KEYWORDS : List (Str × List Str) :=
  [ (("milk").toList, [("молоко").toList, ("сливки").toList, ("сметана").toList, ("йогурт").toList, ("кефир").toList, ("творог").toList, ("сыр").toList, ("масло сливочное").toList]),
    (("lactose").toList, [("молоко").toList, ("сливки").toList, ("сметана").toList, ("йогурт").toList, ("кефир").toList]),
    (("eggs").toList, [("яйцо").toList, ("яйца").toList, ("желток").toList, ("белок").toList]),
    (("fish").toList, [("рыба").toList, ("лосось").toList, ("форель").toList, ("треска").toList, ("тунец").toList, ("скумбрия").toList]),
    (("shellfish").toList, [("креветки").toList, ("краб").toList, ("омар").toList, ("мидии").toList, ("устрицы").toList, ("кальмар").toList]),
    (("tree-nuts").toList, [("орех").toList, ("миндаль").toList, ("фундук").toList, ("кешью").toList, ("фисташки").toList, ("пекан").toList]),
    (("peanuts").toList, [("арахис").toList]),
    (("wheat").toList, [("мука").toList, ("пшеница").toList, ("хлеб").toList, ("макароны").toList, ("спагетти").toList, ("булка").toList]),
    (("gluten").toList, [("мука").toList, ("пшеница").toList, ("рожь").toList, ("ячмень").toList, ("овес").toList, ("хлеб").toList, ("макароны").toList]),
    (("soybeans").toList, [("соя").toList, ("тофу").toList, ("соевый").toList]),
    (("sesame").toList, [("кунжут").toList, ("тахини").toList]),
    (("celery").toList, [("сельдерей").toList]),
    (("mustard").toList, [("горчица").toList]),
    (("sulphites").toList, [("вино").toList, ("уксус").toList]) ]

/-- Table `UNIT_MAPPING` of the source, in declaration (= iteration) order. -/
def UNIT_MAPPING : List (Str × Str × ℚ) :=
  [ (("кг").toList, ("kg").toList, 1000),
    (("килограмм").toList, ("kg").toList, 1000),
    (("г").toList, ("g").toList, 1),
    (("гр").toList, ("g").toList, 1),
    (("грамм").toList, ("g").toList, 1),
    (("мг").toList, ("mg").toList, 1),
    (("л").toList, ("l").toList, 1000),
    (("литр").toList, ("l").toList, 1000),
    (("мл").toList, ("ml").toList, 1),
    (("миллилитр").toList, ("ml").toList, 1),
    (("ч.л.").toList, ("tsp").toList, 5),
    (("ч.ложка").toList, ("tsp").toList, 5),
    (("чайная ложка").toList, ("tsp").toList, 5),
    (("ст.л.").toList, ("tbsp").toList, 15),
    (("ст.ложка").toList, ("tbsp").toList, 15),
    (("столовая ложка").toList, ("tbsp").toList, 15),
    (("стакан").toList, ("cup").toList, 240),
    (("стак").toList, ("cup").toList, 240),
    (("шт").toList, ("pcs").toList, 1),
    (("штук").toList, ("pcs").toList, 1),
    (("штука").toList, ("pcs").toList, 1),
    (("штуки").toList, ("pcs").toList, 1),
    (("щепотка").toList, ("pinch").toList, (1 : ℚ) / 2),
    (("щепот").toList, ("pinch").toList, (1 : ℚ) / 2),
    (("по вкусу").toList, ("to-taste").toList, 0),
    (("вкус").toList, ("to-taste").toList, 0) ]

/-- Table `ACTION_MAPPING` of the source, in declaration (= iteration) order. -/
def ACTION_MAPPING : List (Str × Str) :=
  [ (("добавить").toList, ("add").toList),
    (("добавь").toList, ("add").toList),
    (("добавляем").toList, ("add").toList),
    (("положить").toList, ("add").toList),
    (("смешать").toList, ("mix").toList),
    (("смешай").toList, ("mix").toList),
    (("смешиваем").toList, ("mix").toList),
    (("перемешать").toList, ("mix").toList),
    (("соединить").toList, ("combine").toList),
    (("объединить").toList, ("combine").toList),
    (("взбить").toList, ("blend").toList),
    (("взбивать").toList, ("blend").toList),
    (("нарезать").toList, ("cut").toList),
    (("нарежь").toList, ("cut").toList),
    (("порезать").toList, ("cut").toList),
    (("нашинковать").toList, ("slice").toList),
    (("нашинкуй").toList, ("slice").toList),
    (("измельчить").toList, ("mince").toList),
    (("измельчай").toList, ("mince").toList),
    (("варить").toList, ("boil").toList),
    (("свари").toList, ("boil").toList),
    (("вскипятить").toList, ("boil").toList),
    (("тушить").toList, ("simmer").toList),
    (("туши").toList, ("simmer").toList),
    (("протушить").toList, ("simmer").toList),
    (("жарить").toList, ("fry").toList),
    (("жарь").toList, ("fry").toList),
    (("обжарить").toList, ("fry").toList),
    (("пожарить").toList, ("fry").toList),
    (("запекать").toList, ("bake").toList),
    (("запеки").toList, ("bake").toList),
    (("выпекать").toList, ("bake").toList),
    (("охладить").toList, ("cool").toList),
    (("остудить").toList, ("cool").toList),
    (("замесить").toList, ("knead").toList),
    (("месить").toList, ("knead").toList),
    (("раскатать").toList, ("roll").toList),
    (("раскатай").toList, ("roll").toList),
    (("процедить").toList, ("strain").toList),
    (("процеди").toList, ("strain").toList),
    (("настоять").toList, ("rest").toList),
    (("настаивать").toList, ("rest").toList),
    (("подавать").toList, ("garnish").toList),
    (("подать").toList, ("garnish").toList),
    (("украсить").toList, ("garnish").toList) ]

/-- Last part `(.+)` of the ingredient pattern: one or more characters other
than a newline, greedy. -/
def dotPlus (r : Str) : Option Str :=
  let g := r.takeWhile (fun c => c ≠ '\n')
  if g.isEmpty then none else some g

/-- Tail `\s+(.+)` of the ingredient pattern after at least one whitespace
character was consumed; greedy, longer whitespace runs tried first. -/
def goWs : Str → Option Str
  | [] => dotPlus []
  | d :: t => if isWsChar d then (goWs t) <|> dotPlus (d :: t) else dotPlus (d :: t)

/-- Part `\s+(.+)` of the ingredient pattern. -/
def wsPlusRest : Str → Option Str
  | [] => none
  | c :: t => if isWsChar c then goWs t else none

/-- Part `([а-яА-Я.]+)\s+(.+)` of the ingredient pattern after the first unit
character `acc.reverse` was consumed; the unit group is greedy, longer
matches tried first. -/
def goUnit (acc : Str) : Str → Option (Str × Str)
  | [] => none
  | c :: t =>
    if isUnitChar c then
      (goUnit (c :: acc) t) <|> ((wsPlusRest (c :: t)).map (fun g3 => (acc.reverse, g3)))
    else (wsPlusRest (c :: t)).map (fun g3 => (acc.reverse, g3))

/-- Part `([а-яА-Я.]+)?\s+(.+)` of the ingredient pattern: the optional unit
group is tried first (greedy), then skipped. -/
def afterStar (r2 : Str) : Option (Option Str × Str) :=
  (match r2 with
   | c :: t =>
     if isUnitChar c then (goUnit [c] t).map (fun p => (some p.1, p.2)) else none
   | [] => none)
  <|> ((wsPlusRest r2).map (fun g3 => ((none : Option Str), g3)))

/-- Part `\s*([а-яА-Я.]+)?\s+(.+)` of the ingredient pattern: the leading
`\s*` is greedy, longer whitespace runs tried first. -/
def goStar : Str → Option (Option Str × Str)
  | [] => afterStar []
  | c :: t =>
    if isWsChar c then (goStar t) <|> afterStar (c :: t) else afterStar (c :: t)

/-- Model of `re.match(r'(\d+[.,]?\d*)\s*([а-яА-Я.]+)?\s+(.+)', line)`,
returning the three captured groups.  The quantity group is always the
maximal prefix matching `\d+[.,]?\d*`: giving back characters from it only
exposes a digit, a comma, or a dot followed by a digit, and none of these can
start the remainder `\s*([а-яА-Я.]+)?\s+`unless the position right after the
shortened group could already be reached with the maximal group, so
backtracking into the quantity group never turns a failure into a success. -/
def matchIngredient (cs : Str) : Option (Str × Option Str × Str) :=
  let d1 := cs.takeWhile isDigitChar
  let r1 := cs.drop d1.length
  if d1.isEmpty then none
  else
    let p : Str × Str :=
      match r1 with
      | c :: t =>
        if c = '.' || c = ',' then
          let d2 := t.takeWhile isDigitChar
          (d1 ++ c :: d2, t.drop d2.length)
        else (d1, r1)
      | [] => (d1, [])
    (goStar p.2).map (fun q => (p.1, q.1, q.2))

/-- Model of `re.sub(r'^[-•*]\s*', '', line)`. -/
def stripBullet (line : Str) : Str :=
  match line with
  | c :: t => if c = '-' || c = '•' || c = '*' then t.dropWhile isWsChar else line
  | [] => line

/-- Model of `re.sub(r'^\d+[\.)]\s*', '', line)`. -/
def stripNum (line : Str) : Str :=
  let d := line.takeWhile isDigitChar
  if d.isEmpty then line
  else
    match line.drop d.length with
    | c :: t => if c = '.' || c = ')' then t.dropWhile isWsChar else line
    | [] => line

/-- Model of `re.search(r'(\d+)<ws?>LIT', s)`: leftmost run of digits that is
followed (after greedily skipped whitespace, when `skipWs` is set) by the
literal `lit`; returns the numeric value of the digit group. -/
def findNumLit (skipWs : Bool) (lit : Str) : Str → Option Nat
  | [] => none
  | c :: t =>
    if isDigitChar c then
      let ds := (c :: t).takeWhile isDigitChar
      let rest := (c :: t).drop ds.length
      let rest2 := if skipWs then rest.dropWhile isWsChar else rest
      if hasPfx lit rest2 then some (digitsToNat ds) else findNumLit skipWs lit t
    else findNumLit skipWs lit t

/-- Model of `re.search(r'(\d+)-(\d+)\s*LIT', s)`. -/
def findRangeLit (lit : Str) : Str → Option (Nat × Nat)
  | [] => none
  | c :: t =>
    if isDigitChar c then
      let ds := (c :: t).takeWhile isDigitChar
      let rest := (c :: t).drop ds.length
      match rest with
      | h :: r2 =>
        if h = '-' then
          let d2 := r2.takeWhile isDigitChar
          if d2.isEmpty then findRangeLit lit t
          else
            let r3 := (r2.drop d2.length).dropWhile isWsChar
            if hasPfx lit r3 then some (digitsToNat ds, digitsToNat d2)
            else findRangeLit lit t
        else findRangeLit lit t
      | [] => findRangeLit lit t
    else findRangeLit lit t

/-- Model of `re.search(r'(\d+)\s*[°С]', s)` (the class holds the degree sign
and the capital Cyrillic letter С, as in the source). -/
def findNumCls (cls : List Char) : Str → Option Nat
  | [] => none
  | c :: t =>
    if isDigitChar c then
      let ds := (c :: t).takeWhile isDigitChar
      let rest := ((c :: t).drop ds.length).dropWhile isWsChar
      match rest with
      | d :: _ => if cls.contains d then some (digitsToNat ds) else findNumCls cls t
      | [] => findNumCls cls t
    else findNumCls cls t

/-- Model of `re.search(r'при\s+(\d+)', s)`. -/
def findPriNum : Str → Option Nat
  | [] => none
  | c :: t =>
    if hasPfx (("при").toList) (c :: t) then
      match (c :: t).drop 3 with
      | w :: r1 =>
        if isWsChar w then
          let r2 := r1.dropWhile isWsChar
          let ds := r2.takeWhile isDigitChar
          if ds.isEmpty then findPriNum t else some (digitsToNat ds)
        else findPriNum t
      | [] => findPriNum t
    else findPriNum t

/-- First-match scan of `UNIT_MAPPING` by substring containment, as in
`_normalize_unit`. -/
def unitScan : List (Str × Str × ℚ) → Str → Str × ℚ
  | [], _ => (("pcs").toList, 1)
  | (k, v) :: rest, u => if hasSub k u then v else unitScan rest u

/-- Model of `_normalize_unit`. -/
def normalize_unit (unit_str : Str) : Str × ℚ :=
  unitScan UNIT_MAPPING (stripDotsStr (lowerStr unit_str))

/-- Model of `_detect_allergens`. -/
def detect_allergens (ingredient_name : Str) : List Str :=
  let nl := lowerStr ingredient_name
  ALLERGEN_KEYWORDS.filterMap
    (fun p => if p.2.any (fun k => hasSub k nl) then some p.1 else none)

/-- First-match scan of `ACTION_MAPPING` by substring containment, as in
`_detect_action`. -/
def actionScan : List (Str × Str) → Str → Str
  | [], _ => ("prepare").toList
  | (k, a) :: rest, tl => if hasSub k tl then a else actionScan rest tl

/-- Model of `_detect_action`. -/
def detect_action (text : Str) : Str :=
  actionScan ACTION_MAPPING (lowerStr text)

/-- Model of `_extract_time`: the three patterns are tried in source order
(`(\d+)\s*мин`, `(\d+)\s*час`, `(\d+)-(\d+)\s*мин`); an hours match is
multiplied by 60 and a range match is averaged with integer floor division. -/
def extract_time (text : Str) : Option Nat :=
  let tl := lowerStr text
  match findNumLit true (("мин").toList) tl with
  | some n => some n
  | none =>
    match findNumLit true (("час").toList) tl with
    | some n => some (n * 60)
    | none =>
      match findRangeLit (("мин").toList) tl with
      | some p => some ((p.1 + p.2) / 2)
      | none => none

/-- Model of `_extract_temperature` (searched on the original text, which is
not lowercased in the source). -/
def extract_temperature (text : Str) : Option Nat :=
  match findNumCls ['°', 'С'] text with
  | some n => some n
  | none =>
    match findNumLit true (("град").toList) text with
    | some n => some n
    | none => findPriNum text

/-- Dataclass `ParsedIngredient` of the source. -/
structure ParsedIngredient where
  name : Str
  amount : Str
  value : ℚ
  unit : Str
  allergens : List Str
  notes : Str
deriving DecidableEq

/-- Dataclass `ParsedStep` of the source. -/
structure ParsedStep where
  text : Str
  action : Str
  time_minutes : Option Nat
  temperature_c : Option Nat
deriving DecidableEq

/-- Model of `_parse_ingredient_line` (which always returns a record). -/
def parse_ingredient_line (line : Str) : ParsedIngredient :=
  match matchIngredient line with
  | some (g1, g2, g3) =>
    let value_str := g1.map (fun c => if c = ',' then '.' else c)
    let unit_str :=
      match g2 with
      | some u => if u.isEmpty then ("шт").toList else u
      | none => ("шт").toList
    let nm := stripWs g3
    let v0 := parseDec value_str
    let um := normalize_unit unit_str
    let v := if um.2 ≠ 1 then v0 * um.2 else v0
    { name := nm, amount := line, value := v, unit := um.1,
      allergens := detect_allergens nm, notes := [] }
  | none =>
    let nm := stripWs line
    { name := nm, amount := line, value := 0, unit := ("to-taste").toList,
      allergens := detect_allergens nm, notes := [] }

/-- Heading test of `parse_ingredients`:
`line.lower().startswith(('ингредиент', 'состав', 'для теста'))`. -/
def isIngHeading (line : Str) : Bool :=
  hasPfx (("ингредиент").toList) (lowerStr line) ||
  hasPfx (("состав").toList) (lowerStr line) ||
  hasPfx (("для теста").toList) (lowerStr line)

/-- Non-blank stripped lines of a text:
`[line.strip() for line in text.split('\n') if line.strip()]`. -/
def nonBlankLines (text : Str) : List Str :=
  ((splitNl text).map stripWs).filter (fun l => !l.isEmpty)

/-- Model of `parse_ingredients`. -/
def parse_ingredients (text : Str) : List ParsedIngredient :=
  (nonBlankLines text).filterMap (fun line =>
    if isIngHeading line then none
    else some (parse_ingredient_line (stripBullet line)))

/-- Heading test of `parse_steps`:
`line.lower().startswith(('приготовление', 'инструкция', 'шаг'))`. -/
def isStepHeading (line : Str) : Bool :=
  hasPfx (("приготовление").toList) (lowerStr line) ||
  hasPfx (("инструкция").toList) (lowerStr line) ||
  hasPfx (("шаг").toList) (lowerStr line)

/-- Model of `_parse_step_line` (which always returns a record). -/
def parse_step_line (line : Str) : ParsedStep :=
  { text := line, action := detect_action line,
    time_minutes := extract_time line, temperature_c := extract_temperature line }

/-- Model of `parse_steps` (numbering markers are removed before bullets). -/
def parse_steps (text : Str) : List ParsedStep :=
  (nonBlankLines text).filterMap (fun line =>
    if isStepHeading line then none
    else some (parse_step_line (stripBullet (stripNum line))))

/-- Output record for one ingredient; `allergens` is an `Option` because a
generic document dict may lack the key, which `validate` checks. -/
structure MachineAmount where
  value : ℚ
  unit : Str
  approximate : Bool
deriving DecidableEq

structure RcipIngredient where
  id : Str
  name : Str
  human_amount : Str
  machine_amount : MachineAmount
  allergens : Option (List Str)
  notes : Str
deriving DecidableEq

structure StepParams where
  time_minutes : Option Nat
  temperature_c : Option Nat
deriving DecidableEq

structure RcipStep where
  step_id : Str
  human_text : Str
  action : Str
  params : Option StepParams
deriving DecidableEq

structure ServingsInfo where
  amount : Nat
  unit : Str
  adjustable : Bool
deriving DecidableEq

structure RcipMeta where
  name : Str
  author : Str
  created_date : Str
  difficulty : Str
  description : Option Str
  servings : Option ServingsInfo
  prep_time_minutes : Option Nat
  cook_time_minutes : Option Nat
  total_time_minutes : Option Nat
  keywords : Option (List Str)
  diet_labels : List Str
deriving DecidableEq

structure RcipExtensions where
  source_url : Str
  converted_date : Str
deriving DecidableEq

/-- The assembled document; every top-level field is an `Option` because
`validate` accepts arbitrary dicts and checks key presence. -/
structure RcipRecipe where
  rcip_version : Option Str
  id : Option Str
  meta : Option RcipMeta
  ingredients : Option (List RcipIngredient)
  steps : Option (List RcipStep)
  extensions : Option RcipExtensions
deriving DecidableEq

/-- Model of `_ingredient_to_rcip`. -/
def ingredient_to_rcip (ing : ParsedIngredient) (index : Nat) : RcipIngredient :=
  { id := ("ing-").toList ++ pad4 index,
    name := ing.name,
    human_amount := ing.amount,
    machine_amount := { value := ing.value, unit := ing.unit, approximate := false },
    allergens := some ing.allergens,
    notes := ing.notes }

/-- Model of `_step_to_rcip`: a key is added to `params` only when the value
is truthy (`0` and `None` are both falsy), and the `params` key itself only
when the dict is non-empty. -/
def step_to_rcip (step : ParsedStep) (index : Nat) : RcipStep :=
  let tm : Option Nat :=
    match step.time_minutes with
    | some n => if n = 0 then none else some n
    | none => none
  let tc : Option Nat :=
    match step.temperature_c with
    | some n => if n = 0 then none else some n
    | none => none
  { step_id := ("s-").toList ++ pad2 index,
    human_text := step.text,
    action := step.action,
    params :=
      match tm, tc with
      | none, none => none
      | _, _ => some { time_minutes := tm, temperature_c := tc } }

/-- Model of `_create_meta` (the `created_date` timestamp is an argument;
`servings`, `prep_time`, `cook_time`, `description`, `cuisine` are guarded by
Python truthiness). -/
def create_meta (name description : Str) (servings : Nat)
    (prep_time cook_time : Option Nat) (difficulty cuisine author : Str)
    (createdDate : Str) : RcipMeta :=
  let pt : Option Nat :=
    match prep_time with
    | some n => if n = 0 then none else some n
    | none => none
  let ct : Option Nat :=
    match cook_time with
    | some n => if n = 0 then none else some n
    | none => none
  { name := name, author := author, created_date := createdDate,
    difficulty := difficulty,
    description := if description.isEmpty then none else some description,
    servings :=
      if servings = 0 then none
      else some { amount := servings, unit := ("portions").toList, adjustable := true },
    prep_time_minutes := pt,
    cook_time_minutes := ct,
    total_time_minutes :=
      match pt, ct with
      | some a, some b => some (a + b)
      | _, _ => none,
    keywords := if cuisine.isEmpty then none else some [lowerStr cuisine],
    diet_labels := [] }

/-- Model of `_detect_diet_labels`; the union of the ingredients' allergen
lists, with Python-set membership modelled by list membership.  The source
also computes `has_meat` from `fish` but its branch is `pass`, so it
contributes nothing. -/
def detect_diet_labels (ingredients : List RcipIngredient) : List Str :=
  let allA := (ingredients.map (fun i => i.allergens.getD [])).flatten
  (if !elemStr (("gluten").toList) allA && !elemStr (("wheat").toList) allA
   then [("gluten-free").toList] else []) ++
  (if !elemStr (("milk").toList) allA && !elemStr (("lactose").toList) allA
   then [("dairy-free").toList] else []) ++
  (if !elemStr (("tree-nuts").toList) allA && !elemStr (("peanuts").toList) allA
   then [("nut-free").toList] else [])

/-- Ingredient list built by `convert` from the optional ingredients text
(`if ingredients_text:` is Python truthiness: absent or empty gives `[]`). -/
def buildIngredients (ingredients_text : Option Str) : List RcipIngredient :=
  match ingredients_text with
  | some t =>
    if t.isEmpty then []
    else mapIdx (fun i ing => ingredient_to_rcip ing (i + 1)) 0 (parse_ingredients t)
  | none => []

/-- Step list built by `convert` from the optional steps text. -/
def buildSteps (steps_text : Option Str) : List RcipStep :=
  match steps_text with
  | some t =>
    if t.isEmpty then []
    else mapIdx (fun i st => step_to_rcip st (i + 1)) 0 (parse_steps t)
  | none => []

/-- Model of `convert`.  The random UUID and the two `utcnow` timestamps are
explicit arguments `uuidStr`, `createdDate`, `convertedDate`. -/
def convert (name : Str) (ingredients_text steps_text : Option Str)
    (description : Str) (servings : Nat) (prep_time cook_time : Option Nat)
    (difficulty cuisine author source_url : Str)
    (uuidStr createdDate convertedDate : Str) : RcipRecipe :=
  let ings := buildIngredients ingredients_text
  let stps := buildSteps steps_text
  let meta0 := create_meta name description servings prep_time cook_time
    difficulty cuisine author createdDate
  { rcip_version := some (("0.1").toList),
    id := some (("rcip-").toList ++ uuidStr),
    meta := some { meta0 with diet_labels := detect_diet_labels ings },
    ingredients := some ings,
    steps := some stps,
    extensions :=
      if source_url.isEmpty then none
      else some { source_url := source_url, converted_date := convertedDate } }

/-- Model of the allergen-presence loop of `validate`
(`for i, ing in enumerate(recipe.get('ingredients', []))`). -/
def allergenErrs : Nat → List RcipIngredient → List Str
  | _, [] => []
  | i, ing :: t =>
    (if ing.allergens.isNone
     then [("Ingredient ").toList ++ natDigits (i + 1) ++ (" missing allergens field").toList]
     else []) ++ allergenErrs (i + 1) t

/-- Error message for a missing required top-level field. -/
def missingFieldMsg (f : Str) : Str := ("Missing required field: ").toList ++ f

/-- Model of `validate`: all five required fields are checked in order, then
every ingredient's `allergens` key; all violations are collected. -/
def validate (recipe : RcipRecipe) : Bool × List Str :=
  let errors :=
    (if recipe.rcip_version.isNone then [missingFieldMsg (("rcip_version").toList)] else []) ++
    (if recipe.id.isNone then [missingFieldMsg (("id").toList)] else []) ++
    (if recipe.meta.isNone then [missingFieldMsg (("meta").toList)] else []) ++
    (if recipe.ingredients.isNone then [missingFieldMsg (("ingredients").toList)] else []) ++
    (if recipe.steps.isNone then [missingFieldMsg (("steps").toList)] else []) ++
    allergenErrs 0 (recipe.ingredients.getD [])
  (errors.isEmpty, errors)

/-- Model of `_parse_iso_duration`: hour and minute components are summed and
a zero total comes back as `None`. -/
def parse_iso_duration (duration : Str) : Option Nat :=
  if duration.isEmpty then none
  else
    let h := (findNumLit false (("H").toList) duration).getD 0
    let m := (findNumLit false (("M").toList) duration).getD 0
    let minutes := h * 60 + m
    if minutes > 0 then some minutes else none

/-- Leftmost `\d+` run of a string, as in the `recipeYield` parsing. -/
def firstNum : Str → Option Nat
  | [] => none
  | c :: t =>
    if isDigitChar c then some (digitsToNat ((c :: t).takeWhile isDigitChar))
    else firstNum t

/-- Duck-typed `author` field of a Schema.org object: a dict with an optional
`name` key, or a plain string. -/
inductive AuthorData where
  | obj : Option Str → AuthorData
  | txt : Str → AuthorData
deriving DecidableEq

/-- Duck-typed `recipeYield` field: an integer or a string. -/
inductive YieldData where
  | num : Nat → YieldData
  | txt : Str → YieldData
deriving DecidableEq

/-- One entry of a `recipeInstructions` list: a plain string, or a dict with
an optional `text` key whose `str(...)` rendering is the second component. -/
inductive StepItem where
  | txt : Str → StepItem
  | obj : Option Str → Str → StepItem
deriving DecidableEq

/-- Duck-typed `recipeInstructions` field: a single string or a list. -/
inductive InstructionsData where
  | txt : Str → InstructionsData
  | lst : List StepItem → InstructionsData
deriving DecidableEq

/-- A Schema.org Recipe object; absent keys are `none`. -/
structure SchemaOrgRecipe where
  name : Option Str
  description : Option Str
  author : Option AuthorData
  prepTime : Option Str
  cookTime : Option Str
  recipeYield : Option YieldData
  recipeIngredient : Option (List Str)
  recipeInstructions : Option InstructionsData
deriving DecidableEq

/-- Author extraction of `from_schema_org`: `schema_data.get('author', {})`
then `.get('name', 'Unknown')` on a dict, else `str(...)`. -/
def schemaAuthor : Option AuthorData → Str
  | some (.obj o) => o.getD (("Unknown").toList)
  | some (.txt s) => s
  | none => ("Unknown").toList

/-- Servings extraction of `from_schema_org`: the leading integer of a
string (falling back to 4), a truthy integer, or the default 4. -/
def schemaServings : Option YieldData → Nat
  | some (.txt s) => (firstNum s).getD 4
  | some (.num n) => if n = 0 then 4 else n
  | none => 4

/-- Text of one instruction item: `step.get('text', str(step))` for dicts,
`str(step)` otherwise. -/
def stepItemText : StepItem → Str
  | .txt s => s
  | .obj (some t) _ => t
  | .obj none fb => fb

/-- Steps text of `from_schema_org`: a single string is used as is, a list is
newline-joined; the absent-key default `[]` joins to the empty string. -/
def schemaStepsText : Option InstructionsData → Str
  | some (.txt s) => s
  | some (.lst items) => joinNl (items.map stepItemText)
  | none => []

/-- Model of `from_schema_org`: projects the structured object and calls
`convert` on the newline-joined ingredient list and the steps text. -/
def from_schema_org (sd : SchemaOrgRecipe) (uuidStr createdDate convertedDate : Str) :
    RcipRecipe :=
  convert (sd.name.getD (("Unknown Recipe").toList))
    (some (joinNl (sd.recipeIngredient.getD [])))
    (some (schemaStepsText sd.recipeInstructions))
    (sd.description.getD [])
    (schemaServings sd.recipeYield)
    (parse_iso_duration (sd.prepTime.getD []))
    (parse_iso_duration (sd.cookTime.getD []))
    (("intermediate").toList) [] (schemaAuthor sd.author) []
    uuidStr createdDate convertedDate

theorem hasPfx_iff (p : Str) : ∀ s, hasPfx p s = true ↔ ∃ t, s = p ++ t := by
  induction p with
  | nil => intro s; simp [hasPfx]
  | cons a p ih =>
    intro s
    cases s with
    | nil => simp [hasPfx]
    | cons c cs =>
      simp only [hasPfx, Bool.and_eq_true, decide_eq_true_eq, ih, List.cons_append]
      constructor
      · rintro ⟨h1, t, h2⟩
        subst h1; subst h2; exact ⟨t, rfl⟩
      · rintro ⟨t, ht⟩
        injection ht with h1 h2
        exact ⟨h1.symm, t, h2⟩

theorem hasSub_iff (p : Str) : ∀ s, hasSub p s = true ↔ ∃ u v, s = u ++ p ++ v := by
  intro s
  induction s with
  | nil =>
    simp only [hasSub, List.isEmpty_iff]
    constructor
    · rintro rfl; exact ⟨[], [], rfl⟩
    · rintro ⟨u, v, huv⟩
      rcases List.append_eq_nil.mp huv.symm with ⟨h1, h2⟩
      rcases List.append_eq_nil.mp h1 with ⟨_, h4⟩
      exact h4
  | cons c t ih =>
    simp only [hasSub, Bool.or_eq_true, ih, hasPfx_iff]
    constructor
    · rintro (⟨v, hv⟩ | ⟨u, v, huv⟩)
      · exact ⟨[], v, by simpa using hv⟩
      · exact ⟨c :: u, v, by simp [huv]⟩
    · rintro ⟨u, v, huv⟩
      cases u with
      | nil => exact Or.inl ⟨v, by simpa using huv⟩
      | cons x xs =>
        injection huv with h1 h2
        exact Or.inr ⟨xs, v, h2⟩

theorem hasSub_trans {p q s : Str} (h1 : hasSub p q = true) (h2 : hasSub q s = true) :
    hasSub p s = true := by
  rcases (hasSub_iff p q).mp h1 with ⟨u1, v1, rfl⟩
  rcases (hasSub_iff _ s).mp h2 with ⟨u2, v2, rfl⟩
  exact (hasSub_iff p _).mpr ⟨u2 ++ u1, v1 ++ v2, by simp⟩

theorem elemStr_iff (a : Str) : ∀ l, elemStr a l = true ↔ a ∈ l := by
  intro l
  induction l with
  | nil => simp [elemStr]
  | cons b t ih =>
    by_cases h : a = b
    · simp [elemStr, h]
    · simp [elemStr, h, ih]

theorem filterMap_guard (p : α → Bool) (f : α → β) : ∀ l : List α,
    (l.filterMap (fun x => if p x then none else some (f x)))
      = (l.filter (fun x => !p x)).map f := by
  intro l
  induction l with
  | nil => simp
  | cons a t ih =>
    by_cases h : p a <;>
      simp [List.filterMap_cons, List.filter_cons, h, ih]

theorem mapIdx_ing_ids : ∀ (l : List ParsedIngredient) (k : Nat),
    (mapIdx (fun i ing => ingredient_to_rcip ing (i + 1)) k l).map (fun r => r.id)
      = (List.range' (k + 1) l.length).map (fun n => ("ing-").toList ++ pad4 n) := by
  intro l
  induction l with
  | nil => intro k; simp [mapIdx]
  | cons a t ih =>
    intro k
    simp only [mapIdx, List.map_cons, List.length_cons, List.range'_succ, ih]
    rfl

theorem mapIdx_step_ids : ∀ (l : List ParsedStep) (k : Nat),
    (mapIdx (fun i st => step_to_rcip st (i + 1)) k l).map (fun r => r.step_id)
      = (List.range' (k + 1) l.length).map (fun n => ("s-").toList ++ pad2 n) := by
  intro l
  induction l with
  | nil => intro k; simp [mapIdx]
  | cons a t ih =>
    intro k
    simp only [mapIdx, List.map_cons, List.length_cons, List.range'_succ, ih]
    rfl

theorem allergenErrs_mapIdx : ∀ (l : List ParsedIngredient) (j k : Nat),
    allergenErrs j (mapIdx (fun i ing => ingredient_to_rcip ing (i + 1)) k l) = [] := by
  intro l
  induction l with
  | nil => intro j k; rfl
  | cons a t ih =>
    intro j k
    simp only [mapIdx, allergenErrs]
    rw [ih]
    simp [ingredient_to_rcip]

theorem actionScan_default : ∀ (es : List (Str × Str)) (tl : Str),
    (∀ p ∈ es, hasSub p.1 tl = false) → actionScan es tl = ("prepare").toList := by
  intro es
  induction es with
  | nil => intro tl _; rfl
  | cons e t ih =>
    intro tl h
    have he := h e (by simp)
    cases e with
    | mk k a =>
      simp only [actionScan, he, Bool.false_eq_true, if_false]
      exact ih tl (fun p hp => h p (by simp [hp]))

/-- When every target-valued entry of the table has a key that contains
`k0`, a token not containing `k0` can never be normalized to `target`. -/
theorem unitScan_shadow (target k0 : Str) (hpcs : target ≠ ("pcs").toList) :
    ∀ (es : List (Str × Str × ℚ)) (u : Str), hasSub k0 u = false →
      (∀ e ∈ es, e.2.1 = target → hasSub k0 e.1 = true) →
      (unitScan es u).1 ≠ target := by
  intro es
  induction es with
  | nil => intro u _ _ hc; exact hpcs (hc ▸ rfl)
  | cons e rest ih =>
    intro u h0 hall
    obtain ⟨k, v⟩ := e
    by_cases hm : hasSub k u = true
    · simp only [unitScan, hm, if_true]
      intro hc
      have hk0 : hasSub k0 k = true := hall (k, v) (by simp) hc
      rw [hasSub_trans hk0 hm] at h0
      exact Bool.true_eq_false.mp h0
    · simp only [unitScan, hm, if_false]
      exact ih u h0 (fun e2 he2 => hall e2 (by simp [he2]))

/-- Trace predicate: every table entry up to and including the entry whose
key is `k0` carries a value different from `target`. -/
def safeBefore (target k0 : Str) : List (Str × Str × ℚ) → Bool
  | [] => true
  | (k, v) :: rest =>
    if k = k0 then decide (v.1 ≠ target)
    else decide (v.1 ≠ target) && safeBefore target k0 rest

/-- When a token contains `k0` and every entry up to the `k0` entry has a
value other than `target`, the first-match scan cannot return `target`. -/
theorem unitScan_early_safe (target k0 : Str) (hpcs : target ≠ ("pcs").toList) :
    ∀ (es : List (Str × Str × ℚ)) (u : Str), hasSub k0 u = true →
      safeBefore target k0 es = true →
      (unitScan es u).1 ≠ target := by
  intro es
  induction es with
  | nil => intro u _ _ hc; exact hpcs (hc ▸ rfl)
  | cons e rest ih =>
    intro u h0 hsafe
    obtain ⟨k, v⟩ := e
    by_cases hk : k = k0
    · subst hk
      simp only [safeBefore, if_true, eq_self_iff_true, decide_eq_true_eq] at hsafe
      simp only [unitScan, h0, if_true]
      exact hsafe
    · simp only [safeBefore, if_neg hk, Bool.and_eq_true, decide_eq_true_eq] at hsafe
      by_cases hm : hasSub k u = true
      · simp only [unitScan, hm, if_true]
        exact hsafe.1
      · simp only [unitScan, hm, if_false]
        exact ih u h0 hsafe.2

/-- Claim C10: for every unit token, unit normalization never returns the
codes mg or ml: every token containing мг also contains the earlier key г
(mapped to g), and every token containing мл or миллилитр also contains the
earlier key л (mapped to l), so under the first-match substring scan the
milligram and milliliter lexicon entries are unreachable. -/
theorem C10_mg_ml_unreachable (unit_str : Str) :
    (normalize_unit unit_str).1 ≠ ("mg").toList ∧
    (normalize_unit unit_str).1 ≠ ("ml").toList := by
  unfold normalize_unit
  constructor
  · by_cases hg : hasSub (("г").toList) (stripDotsStr (lowerStr unit_str)) = true
    · exact unitScan_early_safe _ _ (by decide) UNIT_MAPPING _ hg (by decide)
    · exact unitScan_shadow _ _ (by decide) UNIT_MAPPING _
        (Bool.not_eq_true _ ▸ hg) (by decide)
  · by_cases hl : hasSub (("л").toList) (stripDotsStr (lowerStr unit_str)) = true
    · exact unitScan_early_safe _ _ (by decide) UNIT_MAPPING _ hl (by decide)
    · exact unitScan_shadow _ _ (by decide) UNIT_MAPPING _
        (Bool.not_eq_true _ ▸ hl) (by decide)

/-- Claim C3: deriveDietLabels asserts gluten-free iff neither gluten nor
wheat occurs in the union of the ingredients' allergen sets, dairy-free iff
neither milk nor lactose occurs, nut-free iff neither tree-nuts nor peanuts
occurs, and never asserts vegetarian or vegan. -/
theorem C3_diet_labels (ings : List RcipIngredient) :
    (("gluten-free").toList ∈ detect_diet_labels ings ↔
        ¬(("gluten").toList ∈ (ings.map (fun i => i.allergens.getD [])).flatten ∨
          ("wheat").toList ∈ (ings.map (fun i => i.allergens.getD [])).flatten)) ∧
    (("dairy-free").toList ∈ detect_diet_labels ings ↔
        ¬(("milk").toList ∈ (ings.map (fun i => i.allergens.getD [])).flatten ∨
          ("lactose").toList ∈ (ings.map (fun i => i.allergens.getD [])).flatten)) ∧
    (("nut-free").toList ∈ detect_diet_labels ings ↔
        ¬(("tree-nuts").toList ∈ (ings.map (fun i => i.allergens.getD [])).flatten ∨
          ("peanuts").toList ∈ (ings.map (fun i => i.allergens.getD [])).flatten)) ∧
    ("vegetarian").toList ∉ detect_diet_labels ings ∧
    ("vegan").toList ∉ detect_diet_labels ings := by
  set allA := (ings.map (fun i => i.allergens.getD [])).flatten with hA
  have hd : detect_diet_labels ings =
      (if !elemStr (("gluten").toList) allA && !elemStr (("wheat").toList) allA
       then [("gluten-free").toList] else []) ++
      (if !elemStr (("milk").toList) allA && !elemStr (("lactose").toList) allA
       then [("dairy-free").toList] else []) ++
      (if !elemStr (("tree-nuts").toList) allA && !elemStr (("peanuts").toList) allA
       then [("nut-free").toList] else []) := rfl
  have key : ∀ a b : Str,
      ¬(a ∈ allA ∨ b ∈ allA) ↔ ((!elemStr a allA && !elemStr b allA) = true) := by
    intro a b
    rw [Bool.and_eq_true, Bool.not_eq_true', Bool.not_eq_true', not_or]
    rw [← Bool.not_eq_true, ← Bool.not_eq_true, elemStr_iff, elemStr_iff]
  rw [hd, key, key, key]
  cases hb1 : (!elemStr (("gluten").toList) allA && !elemStr (("wheat").toList) allA) <;>
    cases hb2 : (!elemStr (("milk").toList) allA && !elemStr (("lactose").toList) allA) <;>
      cases hb3 : (!elemStr (("tree-nuts").toList) allA && !elemStr (("peanuts").toList) allA) <;>
        simp only [if_true, if_false, Bool.false_eq_true, Bool.true_eq_false] <;>
          decide

/-- Claim C9: in the assembled step record an extracted time or temperature
equal to 0 is omitted exactly as if nothing had been extracted (Python
truthiness), and a step with neither value carries no params object; the two
concrete conjuncts show that a line with 0 мин or при 0 does extract the
value 0. -/
theorem C9_zero_omitted (t a : Str) (i : Nat) :
    (∀ tc : Option Nat,
      step_to_rcip { text := t, action := a, time_minutes := some 0, temperature_c := tc } i
        = step_to_rcip { text := t, action := a, time_minutes := none, temperature_c := tc } i) ∧
    (∀ tm : Option Nat,
      step_to_rcip { text := t, action := a, time_minutes := tm, temperature_c := some 0 } i
        = step_to_rcip { text := t, action := a, time_minutes := tm, temperature_c := none } i) ∧
    (step_to_rcip { text := t, action := a, time_minutes := none, temperature_c := none } i).params
        = none ∧
    extract_time (("варить 0 мин").toList) = some 0 ∧
    extract_temperature (("при 0").toList) = some 0 := by
  refine ⟨fun tc => ?_, fun tm => ?_, rfl, by decide, by decide⟩
  · simp [step_to_rcip]
  · simp [step_to_rcip]

/-- Claim C1 (amended): for every ingredient line matching the
number-unit-name pattern whose unit token is found in the unit lexicon with
multiplier m, the stored quantity is the parsed number times m, and the
record's unit is the lexicon entry's normalized unit code itself (kg, l,
tsp, ...), not the base unit of the multiplier. -/
theorem C1_quantity_and_unit (line g1 u g3 stdU : Str) (m : ℚ)
    (hm : matchIngredient line = some (g1, some u, g3))
    (hu : ¬u.isEmpty = true)
    (hn : normalize_unit u = (stdU, m)) :
    (parse_ingredient_line line).value
        = parseDec (g1.map (fun c => if c = ',' then '.' else c)) * m ∧
    (parse_ingredient_line line).unit = stdU := by
  simp only [parse_ingredient_line, hm, hu, Bool.false_eq_true, if_false]
  rw [hn]
  by_cases h1 : m = 1
  · subst h1; simp
  · simp [h1]

/-- Witness for C1: the line 3 л воды matches with unit token л, lexicon
multiplier 1000, and yields quantity 3000 with unit l. -/
theorem C1_witness :
    matchIngredient (("3 л воды").toList)
        = some ((("3").toList), some (("л").toList), ("воды").toList) ∧
    ¬(("л").toList).isEmpty = true ∧
    normalize_unit (("л").toList) = ((("l").toList), (1000 : ℚ)) ∧
    ((parse_ingredient_line (("3 л воды").toList)).value
        = parseDec ((("3").toList).map (fun c => if c = ',' then '.' else c)) * 1000 ∧
     (parse_ingredient_line (("3 л воды").toList)).unit = ("l").toList) :=
  ⟨by decide, by decide, by rfl,
   C1_quantity_and_unit (("3 л воды").toList) (("3").toList) (("л").toList)
     (("воды").toList) (("l").toList) 1000 (by decide) (by decide) (by rfl)⟩

/-- Counterexample to claim C1 as stated: the line 2 кг сахара matches the
кг lexicon entry with multiplier 1000 and stores quantity 2000, but its unit
is kg — the lexicon code of the matched entry — and not the base unit g that
the claim predicts. -/
theorem C1_counterexample :
    (parse_ingredients (("2 кг сахара").toList)).map (fun r => r.unit) = [("kg").toList] ∧
    normalize_unit (("кг").toList) = ((("kg").toList), (1000 : ℚ)) ∧
    (parse_ingredient_line (("2 кг сахара").toList)).value = 2000 ∧
    ("kg").toList ≠ ("g").toList := by
  have hm : matchIngredient (("2 кг сахара").toList)
      = some ((("2").toList), some (("кг").toList), ("сахара").toList) := by decide
  refine ⟨by decide, by rfl, ?_, by decide⟩
  have h := C1_quantity_and_unit (("2 кг сахара").toList) (("2").toList)
    (("кг").toList) (("сахара").toList) (("kg").toList) 1000 hm (by decide) (by rfl)
  have h2 : parseDec ((("2").toList).map (fun c => if c = ',' then '.' else c))
      = ((2 : Nat) : ℚ) := rfl
  rw [h.1, h2]
  norm_num

/-- Claim C2 (code bug): the patterns are tried in the order minutes, hours,
range, an hours match is multiplied by 60 (1 час gives 60), and the range
pattern would compute the floor average (the matcher on 20-30 минут returns
the pair (20, 30)), but the minutes pattern already matches the second
endpoint of any range, so the line Выпекать 20-30 минут yields 30 and never
the claimed 25: the range branch and its averaging are unreachable. -/
theorem C2_range_shadowed :
    extract_time (("Выпекать 20-30 минут").toList) = some 30 ∧
    extract_time (("Выпекать 20-30 минут").toList) ≠ some 25 ∧
    findRangeLit (("мин").toList) (lowerStr (("Выпекать 20-30 минут").toList)) = some (20, 30) ∧
    extract_time (("Варить 1 час").toList) = some 60 :=
  ⟨by decide, by decide, by decide, by decide⟩

/-- Claim C4: the document assembled by convert assigns ingredient ids
exactly ing-0001..ing-000N for the N parsed ingredients in input order and
step ids exactly s-01..s-0M, contiguous from 1, regardless of how many raw
lines were skipped as headings (ids are assigned after parsing, by
enumeration). -/
theorem C4_sequential_ids (name description difficulty cuisine author source_url : Str)
    (servings : Nat) (prep_time cook_time : Option Nat)
    (its sts uuidStr createdDate convertedDate : Str)
    (hi : ¬its.isEmpty = true) (hs : ¬sts.isEmpty = true) :
    (((convert name (some its) (some sts) description servings prep_time cook_time
        difficulty cuisine author source_url uuidStr createdDate convertedDate).ingredients.getD
          []).map (fun r => r.id)
      = (List.range' 1 (parse_ingredients its).length).map
          (fun n => ("ing-").toList ++ pad4 n)) ∧
    (((convert name (some its) (some sts) description servings prep_time cook_time
        difficulty cuisine author source_url uuidStr createdDate convertedDate).steps.getD
          []).map (fun r => r.step_id)
      = (List.range' 1 (parse_steps sts).length).map
          (fun n => ("s-").toList ++ pad2 n)) := by
  have h1 : (convert name (some its) (some sts) description servings prep_time cook_time
      difficulty cuisine author source_url uuidStr createdDate convertedDate).ingredients
      = some (buildIngredients (some its)) := rfl
  have h2 : (convert name (some its) (some sts) description servings prep_time cook_time
      difficulty cuisine author source_url uuidStr createdDate convertedDate).steps
      = some (buildSteps (some sts)) := rfl
  rw [h1, h2]
  simp only [Option.getD_some, buildIngredients, buildSteps, hi, hs,
    Bool.false_eq_true, if_false]
  constructor
  · simpa using mapIdx_ing_ids (parse_ingredients its) 0
  · simpa using mapIdx_step_ids (parse_steps sts) 0

/-- Witness for C4 at a concrete two-ingredient, one-step input. -/
theorem C4_witness :
    (¬(("300г муки\n2 яйца").toList).isEmpty = true) ∧
    (¬(("Варить 10 мин").toList).isEmpty = true) ∧
    ((((convert (("Тест").toList) (some (("300г муки\n2 яйца").toList))
        (some (("Варить 10 мин").toList)) [] 4 none none (("intermediate").toList) []
        (("Web Source").toList) [] [] [] []).ingredients.getD []).map (fun r => r.id)
      = (List.range' 1 (parse_ingredients (("300г муки\n2 яйца").toList)).length).map
          (fun n => ("ing-").toList ++ pad4 n)) ∧
     (((convert (("Тест").toList) (some (("300г муки\n2 яйца").toList))
        (some (("Варить 10 мин").toList)) [] 4 none none (("intermediate").toList) []
        (("Web Source").toList) [] [] [] []).steps.getD []).map (fun r => r.step_id)
      = (List.range' 1 (parse_steps (("Варить 10 мин").toList)).length).map
          (fun n => ("s-").toList ++ pad2 n))) :=
  ⟨by decide, by decide,
   C4_sequential_ids (("Тест").toList) [] (("intermediate").toList) []
     (("Web Source").toList) [] 4 none none (("300г муки\n2 яйца").toList)
     (("Варить 10 мин").toList) [] [] [] (by decide) (by decide)⟩

/-- Projection of a document to its deterministic part: the generated id,
the creation timestamp and the conversion timestamp are blanked. -/
def eraseVolatile (r : RcipRecipe) : RcipRecipe :=
  { r with
    id := none,
    meta := r.meta.map (fun m => { m with created_date := [] }),
    extensions := r.extensions.map (fun e => { e with converted_date := [] }) }

/-- Claim C6: two convert calls with identical arguments differ only in the
id field, the meta creation timestamp, and (when a source URL is supplied)
the extensions conversion timestamp: after blanking exactly those three
volatile components the two documents are equal, whatever UUID and
timestamps each call drew. -/
theorem C6_deterministic_shape (name : Str) (ingredients_text steps_text : Option Str)
    (description : Str) (servings : Nat) (prep_time cook_time : Option Nat)
    (difficulty cuisine author source_url : Str)
    (u1 t1 c1 u2 t2 c2 : Str) :
    eraseVolatile (convert name ingredients_text steps_text description servings
        prep_time cook_time difficulty cuisine author source_url u1 t1 c1)
      = eraseVolatile (convert name ingredients_text steps_text description servings
        prep_time cook_time difficulty cuisine author source_url u2 t2 c2) := by
  by_cases hsu : source_url.isEmpty = true <;>
    simp [convert, eraseVolatile, create_meta, hsu]

/-- Claim C7: for every name and non-empty ingredient and step texts,
validate of the converted document returns (true, []) — convert always emits
the five required top-level fields and gives every ingredient an allergens
field; the second conjunct shows validate collects all violations instead of
stopping at the first (a document with no fields gets all five messages). -/
theorem C7_validate_convert (name description difficulty cuisine author source_url : Str)
    (servings : Nat) (prep_time cook_time : Option Nat)
    (its sts uuidStr createdDate convertedDate : Str)
    (hi : ¬its.isEmpty = true) (hs : ¬sts.isEmpty = true) :
    validate (convert name (some its) (some sts) description servings prep_time cook_time
        difficulty cuisine author source_url uuidStr createdDate convertedDate)
      = (true, []) ∧
    validate { rcip_version := none, id := none, meta := none, ingredients := none,
               steps := none, extensions := none }
      = (false,
         [missingFieldMsg (("rcip_version").toList), missingFieldMsg (("id").toList),
          missingFieldMsg (("meta").toList), missingFieldMsg (("ingredients").toList),
          missingFieldMsg (("steps").toList)]) := by
  constructor
  · have h1 : (convert name (some its) (some sts) description servings prep_time cook_time
        difficulty cuisine author source_url uuidStr createdDate convertedDate).ingredients
        = some (buildIngredients (some its)) := rfl
    simp only [validate, convert, h1, Option.isNone_some, Option.getD_some,
      Bool.false_eq_true, if_false, List.nil_append]
    simp only [buildIngredients, hi, Bool.false_eq_true, if_false]
    rw [allergenErrs_mapIdx]
    rfl
  · rfl

/-- Witness for C7 at a concrete one-ingredient, one-step conversion. -/
theorem C7_witness :
    (¬(("300г муки").toList).isEmpty = true) ∧
    (¬(("Варить 10 мин").toList).isEmpty = true) ∧
    validate (convert (("Блины").toList) (some (("300г муки").toList))
        (some (("Варить 10 мин").toList)) [] 4 none none (("intermediate").toList) []
        (("Web Source").toList) [] (("uuid").toList) (("ts1").toList) (("ts2").toList))
      = (true, []) :=
  ⟨by decide, by decide,
   (C7_validate_convert (("Блины").toList) [] (("intermediate").toList) []
     (("Web Source").toList) [] 4 none none (("300г муки").toList)
     (("Варить 10 мин").toList) (("uuid").toList) (("ts1").toList) (("ts2").toList)
     (by decide) (by decide)).1⟩

/-- Claim C8: every non-blank non-heading line produces exactly one record
(parsing is a total map over the filtered lines and never raises or drops);
a line matching no quantity pattern degrades to the default ingredient
record (whole trimmed line as name, quantity 0, unit to-taste), and a step
line matching no action keyword and no time or temperature pattern degrades
to the default step record (action prepare, no params). -/
theorem C8_line_to_record (text line : Str) :
    (parse_ingredients text
        = ((nonBlankLines text).filter (fun l => !isIngHeading l)).map
            (fun l => parse_ingredient_line (stripBullet l))) ∧
    (parse_steps text
        = ((nonBlankLines text).filter (fun l => !isStepHeading l)).map
            (fun l => parse_step_line (stripBullet (stripNum l)))) ∧
    (matchIngredient line = none →
      parse_ingredient_line line
        = { name := stripWs line, amount := line, value := 0,
            unit := ("to-taste").toList, allergens := detect_allergens (stripWs line),
            notes := [] }) ∧
    ((∀ p ∈ ACTION_MAPPING, hasSub p.1 (lowerStr line) = false) →
      extract_time line = none → extract_temperature line = none →
      parse_step_line line
        = { text := line, action := ("prepare").toList, time_minutes := none,
            temperature_c := none }) := by
  refine ⟨?_, ?_, ?_, ?_⟩
  · rw [parse_ingredients]
    exact filterMap_guard isIngHeading (fun l => parse_ingredient_line (stripBullet l))
      (nonBlankLines text)
  · rw [parse_steps]
    exact filterMap_guard isStepHeading (fun l => parse_step_line (stripBullet (stripNum l)))
      (nonBlankLines text)
  · intro h
    simp [parse_ingredient_line, h]
  · intro ha ht htc
    rw [parse_step_line]
    rw [show detect_action line = ("prepare").toList from
      actionScan_default ACTION_MAPPING (lowerStr line) ha]
    rw [ht, htc]

/-- Witness for C8 at two concrete pattern-free lines. -/
theorem C8_witness :
    matchIngredient (("Соль по вкусу").toList) = none ∧
    (parse_ingredient_line (("Соль по вкусу").toList)
      = { name := stripWs (("Соль по вкусу").toList),
          amount := ("Соль по вкусу").toList, value := 0,
          unit := ("to-taste").toList,
          allergens := detect_allergens (stripWs (("Соль по вкусу").toList)),
          notes := [] }) ∧
    (parse_step_line (("Сыпать соль").toList)
      = { text := ("Сыпать соль").toList, action := ("prepare").toList,
          time_minutes := none, temperature_c := none }) :=
  ⟨by decide,
   (C8_line_to_record [] (("Соль по вкусу").toList)).2.2.1 (by decide),
   (C8_line_to_record [] (("Сыпать соль").toList)).2.2.2 (by decide) (by decide) (by decide)⟩

/-- Claim C5: for every Schema.org object whose recipeIngredient field is a
list of strings, the adapter produces exactly the ingredient records that a
direct convert call on the newline-joined list produces — whatever the other
arguments of that call are, since the adapter funnels structured data
through the same ingredient parser. -/
theorem C5_adapter_same_ingredients (sd : SchemaOrgRecipe) (lst : List Str)
    (h : sd.recipeIngredient = some lst)
    (uuidStr createdDate convertedDate : Str)
    (name2 description2 difficulty2 cuisine2 author2 source_url2 : Str)
    (servings2 : Nat) (prep2 cook2 : Option Nat) (steps_text2 : Option Str)
    (u2 t2 c2 : Str) :
    (from_schema_org sd uuidStr createdDate convertedDate).ingredients
      = (convert name2 (some (joinNl lst)) steps_text2 description2 servings2
          prep2 cook2 difficulty2 cuisine2 author2 source_url2 u2 t2 c2).ingredients := by
  have h1 : (from_schema_org sd uuidStr createdDate convertedDate).ingredients
      = some (buildIngredients (some (joinNl (sd.recipeIngredient.getD [])))) := rfl
  have h2 : (convert name2 (some (joinNl lst)) steps_text2 description2 servings2
      prep2 cook2 difficulty2 cuisine2 author2 source_url2 u2 t2 c2).ingredients
      = some (buildIngredients (some (joinNl lst))) := rfl
  rw [h1, h2, h, Option.getD_some]

/-- Witness for C5 on a concrete two-entry ingredient list. -/
theorem C5_witness :
    ({ name := some (("Салат").toList), description := none, author := none,
       prepTime := none, cookTime := none, recipeYield := none,
       recipeIngredient := some [("2 помидора").toList, ("1 огурец").toList],
       recipeInstructions := none } : SchemaOrgRecipe).recipeIngredient
      = some [("2 помидора").toList, ("1 огурец").toList] ∧
    (from_schema_org
        { name := some (("Салат").toList), description := none, author := none,
          prepTime := none, cookTime := none, recipeYield := none,
          recipeIngredient := some [("2 помидора").toList, ("1 огурец").toList],
          recipeInstructions := none } [] [] []).ingredients
      = (convert (("Другое имя").toList)
          (some (joinNl [("2 помидора").toList, ("1 огурец").toList]))
          none [] 7 none none (("beginner").toList) [] (("Кто-то").toList) []
          [] [] []).ingredients :=
  ⟨rfl,
   C5_adapter_same_ingredients
     { name := some (("Салат").toList), description := none, author := none,
       prepTime := none, cookTime := none, recipeYield := none,
       recipeIngredient := some [("2 помидора").toList, ("1 огурец").toList],
       recipeInstructions := none }
     [("2 помидора").toList, ("1 огурец").toList] rfl [] [] []
     (("Другое имя").toList) [] (("beginner").toList) [] (("Кто-то").toList) []
     7 none none none [] [] []⟩
